import Mathlib

/-
  Verification of the attendance / break-tracking bot.

  Shallow embedding of src/handlers/breaks.py, src/handlers/work.py and the
  websocket map of src/main.py.  Timestamps are modelled as whole seconds
  since an epoch (Nat); the Python `datetime.replace(hour=..., minute=...,
  second=0, microsecond=0)` becomes arithmetic on the day prefix.  Each
  handler is a pure function from a `World` (the session of one user, the shared
  job queue, and the websocket map) to a result carrying the next world,
  the returned conversation state, and an ordered trace of side effects.
  Trace markers `checkOk` and `mutated` record the position of the
  validity-check success and of the session-mutation block in the control
  flow; all other effects correspond to observable actions of the code.
-/

namespace TgBot

/-- Break types stored in user_data under current_break_type. -/
inductive BreakType where
  | toilet
  | eat
  | rest
  deriving Repr, DecidableEq

/-- Conversation states: SELECTING_ACTION, ON_BREAK, CONFIRM_OFF_WORK = range(3),
plus ConversationHandler.END returned by confirm_off_work. -/
inductive ConvState where
  | selecting
  | onBreakS
  | confirmOff
  | ended
  deriving Repr, DecidableEq

/-- The context.user_data bag of one user.  Absent keys are modelled by the
defaults the dict.get of Python would produce: false, none, 0. -/
structure Session where
  work_started : Bool := false
  work_start_time : Option Nat := none
  on_break : Bool := false
  break_start_time : Option Nat := none
  current_break_type : Option BreakType := none
  toilet_breaks_today : Nat := 0
  eat_breaks_today : Nat := 0
  rest_breaks_today : Nat := 0
  deriving Repr, DecidableEq

/-- The session right after user_data.clear(), and before any key is set. -/
def emptySession : Session := {}

/-- One job_queue entry produced by run_once.  The Python job name
break_warning_<user_id> is user-scoped; `uid` is the user id embedded in
that name.  `data` held chat_id and message. -/
structure Job where
  uid : Nat
  delay : Int
  chat_id : Nat
  message : String
  deriving Repr, DecidableEq

/-- A websocket channel as seen from the handlers: `fails` says whether
send_str (and close) raise when attempted. `closed` records that close()
completed. -/
structure Chan where
  fails : Bool := false
  closed : Bool := false
  deriving Repr, DecidableEq

/-- The mutable state a handler invocation can see: the session of the
invoking user, the shared job queue, and the websocket map (bot_data). -/
structure World where
  session : Session
  jobs : List Job := []
  ws : List (Nat × Chan) := []
  deriving Repr, DecidableEq

/-- Dictionary lookup websockets[user_id] (first match). -/
def wsLookup (uid : Nat) (l : List (Nat × Chan)) : Option Chan :=
  (l.find? (fun p => p.1 == uid)).map (fun p => p.2)

/-- Mark the channel of the user as closed (websockets[user_id].close()). -/
def wsClose (uid : Nat) (l : List (Nat × Chan)) : List (Nat × Chan) :=
  l.map (fun p => if p.1 == uid then (p.1, { p.2 with closed := true }) else p)

/-- Ordered observable side effects of one handler invocation. -/
inductive Effect where
  | checkOk
  | replyText (msg : String)
  | wsSent (uid : Nat) (cmd : String)
  | wsFailed (uid : Nat) (cmd : String)
  | wsClosedE (uid : Nat)
  | mutated
  | disarmed (uid : Nat)
  | armed (uid : Nat) (delay : Int) (msg : String)
  | logged (event : String) (detail : String)
  deriving Repr, DecidableEq

/-- Result of a handler: next world, returned conversation state, trace. -/
structure HResult where
  world : World
  ret : ConvState
  trace : List Effect
  deriving Repr, DecidableEq

-- Constants of breaks.py and work.py.
def MAX_TOILET_BREAKS : Nat := 6
def TOILET_BREAK_LIMIT_SECONDS : Nat := 10 * 60
def MAX_EAT_BREAKS : Nat := 1
def MAX_REST_BREAKS : Nat := 1
def WORK_START_HOUR : Nat := 11
def WORK_START_MINUTE : Nat := 0

def secondsPerDay : Nat := 86400

/-- now.replace(hour=h, minute=m, second=s, microsecond=0) at second
granularity: same day, given time of day. -/
def replaceHMS (now h m s : Nat) : Nat :=
  now / secondsPerDay * secondsPerDay + h * 3600 + m * 60 + s

/-- Modelled from the spec: utils.time_utils.format_duration is not under
src/; the spec only requires human-readable duration formatting, modelled
here as the number of seconds rendered in decimal. -/
def format_duration (secs : Int) : String :=
  toString secs ++ " seconds"

def breakTypeName : BreakType → String
  | BreakType.toilet => "toilet"
  | BreakType.eat => "eat"
  | BreakType.rest => "rest"

-- Message texts (emoji decorations of the source are not modelled).
def toiletWarnMsg : String := "Reminder: You have 1 minute left on your toilet break."
def eatWarnMsg : String := "Reminder: The dinner break period ends in 1 minute."
def restWarnMsg : String := "Reminder: The rest break period ends in 1 minute."

def toiletReport (uid count : Nat) : String :=
  "User ID: " ++ toString uid ++ ". Check-In Succeeded: Toilet. This is your "
    ++ toString count ++ " time Toilet. Time Limit for This Activity: 10 minutes."

def eatReport (uid : Nat) : String :=
  "User ID: " ++ toString uid ++ ". Check-In Succeeded: Eat. Dinner break ends at 22:30."

def restReport (uid : Nat) : String :=
  "User ID: " ++ toString uid ++ ". Check-In Succeeded: Rest. Rest break ends at 17:45."

/-- The report_lines block of end_break is elided in the source (comments only),
so the joined response message is empty. -/
def endBreakReport : String := ""

def offWorkReport : String := "Your final work summary..."

def toiletLogDetail (n : Nat) : String := "Toilet break #" ++ toString n

def eatLogDetail (n : Nat) : String := "Eat break #" ++ toString n

def restLogDetail (n : Nat) : String := "Rest break #" ++ toString n

def endBreakLogDetail (bt : BreakType) (dur : Int) : String :=
  "Ended " ++ breakTypeName bt ++ " break. Duration: " ++ format_duration dur

def offWorkLogDetail (dur : Int) : String :=
  "Total work: " ++ format_duration dur

def monitoringLinkMsg (uid : Nat) : String :=
  "Please open this link to start webcam monitoring: /monitor.html?user_id=" ++ toString uid

/-- breaks.send_ws_command: look up the channel; if present, try to send;
a raised error is only logged.  No state is changed. -/
def send_ws_command (uid : Nat) (command : String) (w : World) : List Effect :=
  match wsLookup uid w.ws with
  | none => []
  | some c =>
      if c.fails then [Effect.wsFailed uid command] else [Effect.wsSent uid command]

/-- breaks._remove_previous_job: fetch jobs by the user-scoped name and
schedule their removal (only when some exist). -/
def _remove_previous_job (uid : Nat) (jobs : List Job) : List Job × List Effect :=
  let current_jobs := jobs.filter (fun j => j.uid == uid)
  if current_jobs.isEmpty then (jobs, [])
  else (jobs.filter (fun j => !(j.uid == uid)), [Effect.disarmed uid])

/-- breaks.schedule_warning: remove the previous job under the scoped
name of the user, then run_once a new job under that name. -/
def schedule_warning (uid chat_id : Nat) (delay : Int) (message : String)
    (jobs : List Job) : List Job × List Effect :=
  let r := _remove_previous_job uid jobs
  (r.1 ++ [⟨uid, delay, chat_id, message⟩], r.2 ++ [Effect.armed uid delay message])

/-- breaks._validate_break_start: must have started work and not be on a
break already; on failure replies and returns False. -/
def _validate_break_start (s : Session) : Bool × List Effect :=
  if s.work_started = false then
    (false, [Effect.replyText "You must start work before taking a break."])
  else if s.on_break = true then
    (false, [Effect.replyText "You are already on a break."])
  else (true, [])

/-- breaks.start_toilet_break. -/
def start_toilet_break (uid chat_id now : Nat) (w : World) : HResult :=
  let v := _validate_break_start w.session
  if v.1 = false then ⟨w, ConvState.selecting, v.2⟩
  else
    let toilet_breaks_taken := w.session.toilet_breaks_today
    if MAX_TOILET_BREAKS ≤ toilet_breaks_taken then
      ⟨w, ConvState.selecting,
        [Effect.replyText "You have reached the maximum of 6 toilet breaks for today."]⟩
    else
      let wsE := send_ws_command uid "PAUSE_MONITORING" w
      let s2 := { w.session with
        on_break := true
        break_start_time := some now
        current_break_type := some BreakType.toilet
        toilet_breaks_today := toilet_breaks_taken + 1 }
      let sched := schedule_warning uid chat_id
        ((TOILET_BREAK_LIMIT_SECONDS : Int) - 60) toiletWarnMsg w.jobs
      ⟨⟨s2, sched.1, w.ws⟩, ConvState.onBreakS,
        Effect.checkOk :: wsE
          ++ Effect.mutated
          :: Effect.logged "start_toilet" (toiletLogDetail (toilet_breaks_taken + 1))
          :: sched.2
          ++ [Effect.replyText (toiletReport uid (toilet_breaks_taken + 1))]⟩

/-- breaks.start_eat_break. -/
def start_eat_break (uid chat_id now : Nat) (w : World) : HResult :=
  let v := _validate_break_start w.session
  if v.1 = false then ⟨w, ConvState.selecting, v.2⟩
  else
    let eat_breaks_taken := w.session.eat_breaks_today
    if MAX_EAT_BREAKS ≤ eat_breaks_taken then
      ⟨w, ConvState.selecting,
        [Effect.replyText "You have already taken your dinner break for today."]⟩
    else
      let start_time := replaceHMS now 22 0 0
      let end_time := start_time + 30 * 60
      if ¬ (start_time ≤ now ∧ now ≤ end_time) then
        ⟨w, ConvState.selecting,
          [Effect.replyText "Dinner break is only allowed between 22:00 and 22:30."]⟩
      else
        let wsE := send_ws_command uid "PAUSE_MONITORING" w
        let s2 := { w.session with
          on_break := true
          break_start_time := some now
          current_break_type := some BreakType.eat
          eat_breaks_today := eat_breaks_taken + 1 }
        let remaining_seconds : Int := (end_time : Int) - (now : Int)
        let sched :=
          if 60 < remaining_seconds then
            schedule_warning uid chat_id (remaining_seconds - 60) eatWarnMsg w.jobs
          else (w.jobs, [])
        ⟨⟨s2, sched.1, w.ws⟩, ConvState.onBreakS,
          Effect.checkOk :: wsE
            ++ Effect.mutated
            :: Effect.logged "start_eat" (eatLogDetail (eat_breaks_taken + 1))
            :: sched.2
            ++ [Effect.replyText (eatReport uid)]⟩

/-- breaks.start_rest_break. -/
def start_rest_break (uid chat_id now : Nat) (w : World) : HResult :=
  let v := _validate_break_start w.session
  if v.1 = false then ⟨w, ConvState.selecting, v.2⟩
  else
    let rest_breaks_taken := w.session.rest_breaks_today
    if MAX_REST_BREAKS ≤ rest_breaks_taken then
      ⟨w, ConvState.selecting,
        [Effect.replyText "You have already taken your rest break for today."]⟩
    else
      let start_time := replaceHMS now 16 15 0
      let end_time := start_time + (1 * 3600 + 30 * 60)
      if ¬ (start_time ≤ now ∧ now ≤ end_time) then
        ⟨w, ConvState.selecting,
          [Effect.replyText "Rest break is only allowed between 16:15 and 17:45."]⟩
      else
        let wsE := send_ws_command uid "PAUSE_MONITORING" w
        let s2 := { w.session with
          on_break := true
          break_start_time := some now
          current_break_type := some BreakType.rest
          rest_breaks_today := rest_breaks_taken + 1 }
        let remaining_seconds : Int := (end_time : Int) - (now : Int)
        let sched :=
          if 60 < remaining_seconds then
            schedule_warning uid chat_id (remaining_seconds - 60) restWarnMsg w.jobs
          else (w.jobs, [])
        ⟨⟨s2, sched.1, w.ws⟩, ConvState.onBreakS,
          Effect.checkOk :: wsE
            ++ Effect.mutated
            :: Effect.logged "start_rest" (restLogDetail (rest_breaks_taken + 1))
            :: sched.2
            ++ [Effect.replyText (restReport uid)]⟩

/-- breaks.end_break: resume signal, then unconditional job removal, then
the validity check on the break fields, then log, state reset, report. -/
def end_break (uid chat_id now : Nat) (w : World) : HResult :=
  let wsE := send_ws_command uid "RESUME_MONITORING" w
  let rj := _remove_previous_job uid w.jobs
  match w.session.break_start_time, w.session.current_break_type with
  | some break_start_time, some break_type =>
      let duration_seconds : Int := (now : Int) - (break_start_time : Int)
      let s2 := { w.session with
        on_break := false
        break_start_time := none
        current_break_type := none }
      ⟨⟨s2, rj.1, w.ws⟩, ConvState.selecting,
        wsE ++ rj.2
          ++ [Effect.checkOk,
              Effect.logged "end_break" (endBreakLogDetail break_type duration_seconds),
              Effect.mutated,
              Effect.replyText endBreakReport]⟩
  | _, _ =>
      ⟨⟨w.session, rj.1, w.ws⟩, ConvState.selecting, wsE ++ rj.2⟩

/-- work.start_work. -/
def start_work (uid now : Nat) (w : World) : HResult :=
  if w.session.work_started then
    ⟨w, ConvState.selecting,
      [Effect.replyText "You have already started your work session."]⟩
  else
    let s2 := { w.session with work_started := true, work_start_time := some now }
    let official_start_time := replaceHMS now WORK_START_HOUR WORK_START_MINUTE 0
    let timeliness_message :=
      if official_start_time < now then
        "Late Start: You are late by " ++ format_duration ((now : Int) - official_start_time) ++ "."
      else "On Time: You have successfully checked in."
    ⟨⟨s2, w.jobs, w.ws⟩, ConvState.selecting,
      [Effect.mutated,
       Effect.logged "start_work" "Checked in",
       Effect.replyText ("User: " ++ toString uid ++ ". " ++ timeliness_message),
       Effect.replyText (monitoringLinkMsg uid)]⟩

/-- work.off_work: guards, then asks for confirmation. -/
def off_work (w : World) : HResult :=
  if w.session.work_started = false then
    ⟨w, ConvState.selecting, [Effect.replyText "You haven\x27t started work yet."]⟩
  else if w.session.on_break = true then
    ⟨w, ConvState.onBreakS,
      [Effect.replyText "You must end your break before checking out."]⟩
  else
    ⟨w, ConvState.confirmOff,
      [Effect.replyText "Are you sure you want to check out?"]⟩

/-- work.confirm_off_work: STOP and close the channel if present (a raised
send error skips the close and is only logged), compute the total work
duration (a missing work_start_time would raise: modelled as none), log,
send the final report, clear user_data, return END. -/
def confirm_off_work (uid now : Nat) (w : World) : Option HResult :=
  let wsPart : List Effect × List (Nat × Chan) :=
    match wsLookup uid w.ws with
    | none => ([], w.ws)
    | some c =>
        if c.fails then ([Effect.wsFailed uid "STOP_MONITORING"], w.ws)
        else ([Effect.wsSent uid "STOP_MONITORING", Effect.wsClosedE uid], wsClose uid w.ws)
  match w.session.work_start_time with
  | none => none
  | some work_start_time =>
      let total_work_duration : Int := (now : Int) - (work_start_time : Int)
      some ⟨⟨emptySession, w.jobs, wsPart.2⟩, ConvState.ended,
        wsPart.1
          ++ [Effect.logged "off_work" (offWorkLogDetail total_work_duration),
              Effect.replyText offWorkReport,
              Effect.mutated]⟩

/-- work.cancel_off_work. -/
def cancel_off_work (w : World) : HResult :=
  ⟨w, ConvState.selecting, [Effect.replyText "Check-out cancelled."]⟩

/-- The command alphabet of the conversation handler (main.py). -/
inductive Cmd where
  | startWork
  | offWork
  | cancelOffWork
  | confirmOffWork
  | startToilet
  | startEat
  | startRest
  | endBreakC
  deriving Repr, DecidableEq

/-- One dispatch step; none models the TypeError raised by
confirm_off_work when work_start_time is missing. -/
def step (c : Cmd) (uid chat_id now : Nat) (w : World) : Option HResult :=
  match c with
  | Cmd.startWork => some (start_work uid now w)
  | Cmd.offWork => some (off_work w)
  | Cmd.cancelOffWork => some (cancel_off_work w)
  | Cmd.confirmOffWork => confirm_off_work uid now w
  | Cmd.startToilet => some (start_toilet_break uid chat_id now w)
  | Cmd.startEat => some (start_eat_break uid chat_id now w)
  | Cmd.startRest => some (start_rest_break uid chat_id now w)
  | Cmd.endBreakC => some (end_break uid chat_id now w)

-- Effect-classification predicates used to state ordering properties.

def isCheck : Effect → Bool
  | Effect.checkOk => true
  | _ => false

def isSignal : Effect → Bool
  | Effect.wsSent _ _ => true
  | Effect.wsFailed _ _ => true
  | _ => false

def isMut : Effect → Bool
  | Effect.mutated => true
  | _ => false

def isArm : Effect → Bool
  | Effect.armed _ _ _ => true
  | _ => false

def isSched : Effect → Bool
  | Effect.armed _ _ _ => true
  | Effect.disarmed _ => true
  | _ => false

def isLog : Effect → Bool
  | Effect.logged _ _ => true
  | _ => false

def isReport : Effect → Bool
  | Effect.replyText _ => true
  | _ => false

/-- Every effect satisfying p occurs strictly before every effect
satisfying q in the trace. -/
def allBefore (p q : Effect → Bool) : List Effect → Bool
  | [] => true
  | e :: rest => (!(q e) || rest.all (fun x => !(p x))) && allBefore p q rest

/-- The side-effect order asserted by the spec: check, then signal, then
mutation, then scheduler update, then log, then report. -/
def claimedEffectOrder (tr : List Effect) : Bool :=
  allBefore isCheck isSignal tr && allBefore isSignal isMut tr
    && allBefore isMut isSched tr && allBefore isSched isLog tr
    && allBefore isLog isReport tr

/-- The order the break-start handlers actually produce: check, signal,
mutation, log, scheduler update, report. -/
def startEffectOrder (tr : List Effect) : Bool :=
  allBefore isCheck isSignal tr && allBefore isSignal isMut tr
    && allBefore isMut isLog tr && allBefore isLog isSched tr
    && allBefore isSched isReport tr

/-- The order end_break actually produces: signal, scheduler disarm,
validity check, log, mutation, report. -/
def endEffectOrder (tr : List Effect) : Bool :=
  allBefore isSignal isSched tr && allBefore isSched isCheck tr
    && allBefore isCheck isLog tr && allBefore isLog isMut tr
    && allBefore isMut isReport tr

/-- A session clocked in at time 100 with all counters zero, with a
healthy monitoring channel registered for user 1. -/
def wWorking : World :=
  ⟨{ work_started := true, work_start_time := some 100 }, [], [(1, {})]⟩

/-- A clocked-in session with a pending warning job for user 1 and no
monitoring channel. -/
def wPending : World :=
  ⟨{ work_started := true, work_start_time := some 100 }, [⟨1, 540, 1, "m"⟩], []⟩

-- Helper lemmas about the job queue.

theorem jobs_filter_excl (u : Nat) (l : List Job) :
    (l.filter (fun j => !(j.uid == u))).filter (fun j => j.uid == u) = [] := by
  induction l with
  | nil => rfl
  | cons j t ih =>
      by_cases h : j.uid == u
      · simp [List.filter_cons, h, ih]
      · simp only [Bool.not_eq_true] at h
        simp [List.filter_cons, h, ih]

theorem remove_previous_filter (u : Nat) (l : List Job) :
    ((_remove_previous_job u l).1.filter (fun j => j.uid == u)) = [] := by
  unfold _remove_previous_job
  by_cases h : (l.filter (fun j => j.uid == u)).isEmpty
  · simp only [h, if_true]
    exact List.isEmpty_iff.mp h
  · simp only [h, if_false]
    exact jobs_filter_excl u l

theorem wsLookup_wsClose (u : Nat) (l : List (Nat × Chan)) :
    wsLookup u (wsClose u l) = (wsLookup u l).map (fun c => { c with closed := true }) := by
  induction l with
  | nil => rfl
  | cons p t ih =>
      by_cases h : p.1 == u
      · simp [wsLookup, wsClose, List.find?, h] at ih ⊢
      · simp only [Bool.not_eq_true] at h
        simp [wsLookup, wsClose, List.find?, h] at ih ⊢
        exact ih

/-- C4: eligibility windows are closed intervals at second granularity.
For any working session that is not on a break and below the eat and
rest quotas: an eat break at 21:59:59 (second 79199 of the day) is
denied leaving the world unchanged, at 22:00:00 (79200) and 22:30:00
(81000) it is allowed, and at 22:30:01 (81001) it is denied; a rest
break at 16:14:59 (58499) is denied, at 16:15:00 (58500) and 17:45:00
(63900) it is allowed, and at 17:45:01 (63901) it is denied. -/
theorem window_boundaries (uid chat_id : Nat) (w : World)
    (hw : w.session.work_started = true) (hb : w.session.on_break = false)
    (he : w.session.eat_breaks_today < MAX_EAT_BREAKS)
    (hr : w.session.rest_breaks_today < MAX_REST_BREAKS) :
    ((start_eat_break uid chat_id 79199 w).ret = ConvState.selecting ∧
      (start_eat_break uid chat_id 79199 w).world = w) ∧
    (start_eat_break uid chat_id 79200 w).ret = ConvState.onBreakS ∧
    (start_eat_break uid chat_id 81000 w).ret = ConvState.onBreakS ∧
    ((start_eat_break uid chat_id 81001 w).ret = ConvState.selecting ∧
      (start_eat_break uid chat_id 81001 w).world = w) ∧
    ((start_rest_break uid chat_id 58499 w).ret = ConvState.selecting ∧
      (start_rest_break uid chat_id 58499 w).world = w) ∧
    (start_rest_break uid chat_id 58500 w).ret = ConvState.onBreakS ∧
    (start_rest_break uid chat_id 63900 w).ret = ConvState.onBreakS ∧
    ((start_rest_break uid chat_id 63901 w).ret = ConvState.selecting ∧
      (start_rest_break uid chat_id 63901 w).world = w) := by
  refine ⟨⟨?_, ?_⟩, ?_, ?_, ⟨?_, ?_⟩, ⟨?_, ?_⟩, ?_, ?_, ⟨?_, ?_⟩⟩ <;>
    first
      | (unfold start_eat_break _validate_break_start
         dsimp only
         simp [hw, hb, not_le.mpr he, replaceHMS, secondsPerDay])
      | (unfold start_rest_break _validate_break_start
         dsimp only
         simp [hw, hb, not_le.mpr hr, replaceHMS, secondsPerDay])

/-- Witness for C4 on the concrete fresh working session. -/
theorem window_boundaries_witness :
    ((start_eat_break 1 1 79199 wWorking).ret = ConvState.selecting ∧
      (start_eat_break 1 1 79199 wWorking).world = wWorking) ∧
    (start_eat_break 1 1 79200 wWorking).ret = ConvState.onBreakS ∧
    (start_eat_break 1 1 81000 wWorking).ret = ConvState.onBreakS ∧
    ((start_eat_break 1 1 81001 wWorking).ret = ConvState.selecting ∧
      (start_eat_break 1 1 81001 wWorking).world = wWorking) ∧
    ((start_rest_break 1 1 58499 wWorking).ret = ConvState.selecting ∧
      (start_rest_break 1 1 58499 wWorking).world = wWorking) ∧
    (start_rest_break 1 1 58500 wWorking).ret = ConvState.onBreakS ∧
    (start_rest_break 1 1 63900 wWorking).ret = ConvState.onBreakS ∧
    ((start_rest_break 1 1 63901 wWorking).ret = ConvState.selecting ∧
      (start_rest_break 1 1 63901 wWorking).world = wWorking) :=
  window_boundaries 1 1 wWorking (by decide) (by decide) (by decide) (by decide)

/-- C6: for any user and any starting job queue, arming a warning twice
in a row leaves exactly one job registered under the scoped name of that user,
namely the latest one; and the second arming cancels the previous timer
(a disarm effect) before installing the new one (the arm effect). -/
theorem warning_rearm_single_timer (uid chat_id : Nat) (jobs : List Job)
    (d1 d2 : Int) (m1 m2 : String) :
    ((schedule_warning uid chat_id d2 m2
        (schedule_warning uid chat_id d1 m1 jobs).1).1.filter (fun j => j.uid == uid)
      = [⟨uid, d2, chat_id, m2⟩]) ∧
    (schedule_warning uid chat_id d2 m2
        (schedule_warning uid chat_id d1 m1 jobs).1).2
      = [Effect.disarmed uid, Effect.armed uid d2 m2] := by
  have hq1 : ((schedule_warning uid chat_id d1 m1 jobs).1.filter (fun j => j.uid == uid))
      = [⟨uid, d1, chat_id, m1⟩] := by
    unfold schedule_warning
    simp [List.filter_append, remove_previous_filter, List.filter_cons]
  constructor
  · unfold schedule_warning
    simp [List.filter_append, remove_previous_filter, List.filter_cons]
  · unfold schedule_warning
    unfold _remove_previous_job
    simp only [hq1]
    simp

/-- C1 counterexample: at 22:28:30 (second 80910; window end 81000) a
successful eat-break start arms a warning of delay
windowEnd - now - 60 = 30, although that value does not exceed 60
seconds — the code arms whenever windowEnd - now exceeds 60, not only
when the delay value itself exceeds 60. -/
theorem eat_warning_threshold_cex :
    (start_eat_break 1 1 80910 wWorking).ret = ConvState.onBreakS ∧
    Effect.armed 1 (((81000 : Nat) : Int) - 80910 - 60) eatWarnMsg
      ∈ (start_eat_break 1 1 80910 wWorking).trace ∧
    ¬ (60 < ((81000 : Nat) : Int) - 80910 - 60) := by
  decide

/-- C2 counterexample: a successful toilet-break start (fresh working
session, healthy channel) produces its activity-log write before the
warning-scheduler arm, so the claimed order check, signal, mutation,
scheduler update, log, report does not hold of its effect trace. -/
theorem side_effect_order_cex :
    (start_toilet_break 1 1 80910 wWorking).ret = ConvState.onBreakS ∧
    claimedEffectOrder (start_toilet_break 1 1 80910 wWorking).trace = false := by
  decide

/-- C3 counterexample: with a pending warning job for user 1 in the
queue, confirming clock-out completes (returns a result) while leaving
that job in the queue: confirm_off_work performs no warning-scheduler
cancellation. -/
theorem clockout_no_disarm_cex :
    (confirm_off_work 1 1000 wPending).map
        (fun r => r.world.jobs.filter (fun j => j.uid == 1))
      = some [⟨1, 540, 1, "m"⟩] ∧
    ([⟨1, 540, 1, "m"⟩] : List Job) ≠ [] := by
  decide

/-- C3 (amended): ending a break always leaves no job registered under
the scoped warning name of the user — for every state and every pending job,
regardless of whether the delay of the job has already elapsed in logical
time, and also on the error path of end_break; confirming clock-out, by
contrast, performs no scheduler cancellation: it returns the job queue
unchanged. -/
theorem end_break_disarms_warning (uid chat_id now : Nat) (w : World) :
    ((end_break uid chat_id now w).world.jobs.filter (fun j => j.uid == uid) = []) ∧
    (∀ r, confirm_off_work uid now w = some r → r.world.jobs = w.jobs) := by
  constructor
  · unfold end_break
    cases h1 : w.session.break_start_time with
    | none => simpa using remove_previous_filter uid w.jobs
    | some bst =>
        cases h2 : w.session.current_break_type with
        | none => simpa using remove_previous_filter uid w.jobs
        | some bt => simpa using remove_previous_filter uid w.jobs
  · intro r hr
    unfold confirm_off_work at hr
    cases h : w.session.work_start_time with
    | none => simp [h] at hr
    | some wst =>
        simp only [h] at hr
        cases hr
        rfl

/-- A session on a toilet break started at 9000 whose pending warning
job (delay 540) has already elapsed at logical time 10000. -/
def wElapsed : World :=
  ⟨{ work_started := true, work_start_time := some 100, on_break := true,
     break_start_time := some 9000, current_break_type := some BreakType.toilet },
   [⟨1, 540, 1, "m"⟩], []⟩

/-- Witness for the amended C3 at concrete inputs: ending the break at
time 10000 — after the armed delay 540 has elapsed — leaves no warning
job for user 1, and confirming clock-out on wPending returns the job
queue unchanged. -/
theorem end_break_disarms_warning_witness :
    (end_break 1 1 10000 wElapsed).world.jobs.filter (fun j => j.uid == 1) = [] ∧
    ((confirm_off_work 1 1000 wPending).get (by decide)).world.jobs = wPending.jobs :=
  ⟨(end_break_disarms_warning 1 1 10000 wElapsed).1,
   (end_break_disarms_warning 1 1 1000 wPending).2 _ (Option.some_get _).symm⟩

/-- The parts of a handler result that attendance bookkeeping depends
on: the session, the job queue, and the returned conversation state. -/
def coreOf (r : HResult) : Session × List Job × ConvState :=
  (r.world.session, r.world.jobs, r.ret)

/-- C9: monitoring signals are best-effort.  For every transition that
sends a pause, resume or stop signal, the resulting session, job queue
and return value are the same for every websocket map — in particular
the same whether the user has no channel, a failing channel, or a
healthy one. -/
theorem monitoring_best_effort (uid chat_id now : Nat) (s : Session)
    (jobs : List Job) (ws1 ws2 : List (Nat × Chan)) :
    coreOf (start_toilet_break uid chat_id now ⟨s, jobs, ws1⟩)
      = coreOf (start_toilet_break uid chat_id now ⟨s, jobs, ws2⟩) ∧
    coreOf (start_eat_break uid chat_id now ⟨s, jobs, ws1⟩)
      = coreOf (start_eat_break uid chat_id now ⟨s, jobs, ws2⟩) ∧
    coreOf (start_rest_break uid chat_id now ⟨s, jobs, ws1⟩)
      = coreOf (start_rest_break uid chat_id now ⟨s, jobs, ws2⟩) ∧
    coreOf (end_break uid chat_id now ⟨s, jobs, ws1⟩)
      = coreOf (end_break uid chat_id now ⟨s, jobs, ws2⟩) ∧
    (confirm_off_work uid now ⟨s, jobs, ws1⟩).map coreOf
      = (confirm_off_work uid now ⟨s, jobs, ws2⟩).map coreOf := by
  refine ⟨?_, ?_, ?_, ?_, ?_⟩
  · unfold start_toilet_break
    dsimp only
    split_ifs <;> rfl
  · unfold start_eat_break
    dsimp only
    split_ifs <;> rfl
  · unfold start_rest_break
    dsimp only
    split_ifs <;> rfl
  · unfold end_break
    cases h1 : s.break_start_time <;> cases h2 : s.current_break_type <;> rfl
  · unfold confirm_off_work
    cases h : s.work_start_time <;> simp [coreOf]

/-- C5: every denied break-start leaves the world (session, job queue,
channels) unchanged and returns SELECTING_ACTION: a toilet break at the
6-count limit, an eat or rest break at the 1-count limit, and any
break-start while already on a break — the latter regardless of type and
counters, and without any warning-scheduler effect in its trace. -/
theorem denied_break_no_mutation (uid chat_id now : Nat) (w : World) :
    (MAX_TOILET_BREAKS ≤ w.session.toilet_breaks_today →
      (start_toilet_break uid chat_id now w).world = w ∧
      (start_toilet_break uid chat_id now w).ret = ConvState.selecting) ∧
    (MAX_EAT_BREAKS ≤ w.session.eat_breaks_today →
      (start_eat_break uid chat_id now w).world = w ∧
      (start_eat_break uid chat_id now w).ret = ConvState.selecting) ∧
    (MAX_REST_BREAKS ≤ w.session.rest_breaks_today →
      (start_rest_break uid chat_id now w).world = w ∧
      (start_rest_break uid chat_id now w).ret = ConvState.selecting) ∧
    (w.session.on_break = true →
      ((start_toilet_break uid chat_id now w).world = w ∧
        (start_toilet_break uid chat_id now w).ret = ConvState.selecting ∧
        (start_toilet_break uid chat_id now w).trace.all (fun e => !(isSched e)) = true) ∧
      ((start_eat_break uid chat_id now w).world = w ∧
        (start_eat_break uid chat_id now w).ret = ConvState.selecting ∧
        (start_eat_break uid chat_id now w).trace.all (fun e => !(isSched e)) = true) ∧
      ((start_rest_break uid chat_id now w).world = w ∧
        (start_rest_break uid chat_id now w).ret = ConvState.selecting ∧
        (start_rest_break uid chat_id now w).trace.all (fun e => !(isSched e)) = true)) := by
  refine ⟨?_, ?_, ?_, ?_⟩
  · intro h
    unfold start_toilet_break _validate_break_start
    dsimp only
    cases hw : w.session.work_started with
    | false => simp
    | true =>
        cases hb : w.session.on_break with
        | false => simp [h]
        | true => simp
  · intro h
    unfold start_eat_break _validate_break_start
    dsimp only
    cases hw : w.session.work_started with
    | false => simp
    | true =>
        cases hb : w.session.on_break with
        | false => simp [h]
        | true => simp
  · intro h
    unfold start_rest_break _validate_break_start
    dsimp only
    cases hw : w.session.work_started with
    | false => simp
    | true =>
        cases hb : w.session.on_break with
        | false => simp [h]
        | true => simp
  · intro hb
    refine ⟨?_, ?_, ?_⟩ <;>
      · first
          | unfold start_toilet_break _validate_break_start
          | skip
        first
          | unfold start_eat_break _validate_break_start
          | skip
        first
          | unfold start_rest_break _validate_break_start
          | skip
        dsimp only
        cases hw : w.session.work_started with
        | false => simp [isSched]
        | true => simp [hb, isSched]

/-- A session that is on a toilet break with every break quota already
exhausted (6 toilet, 1 eat, 1 rest). -/
def wMaxed : World :=
  ⟨{ work_started := true, work_start_time := some 100, on_break := true,
     break_start_time := some 200, current_break_type := some BreakType.toilet,
     toilet_breaks_today := 6, eat_breaks_today := 1, rest_breaks_today := 1 }, [], []⟩

/-- Witness for C5 at a concrete world with all quotas reached and a
break in progress: every break-start is denied, unchanged, and without
scheduler effects. -/
theorem denied_break_no_mutation_witness :
    ((start_toilet_break 1 1 300 wMaxed).world = wMaxed ∧
      (start_toilet_break 1 1 300 wMaxed).ret = ConvState.selecting) ∧
    ((start_eat_break 1 1 300 wMaxed).world = wMaxed ∧
      (start_eat_break 1 1 300 wMaxed).ret = ConvState.selecting) ∧
    ((start_rest_break 1 1 300 wMaxed).world = wMaxed ∧
      (start_rest_break 1 1 300 wMaxed).ret = ConvState.selecting) ∧
    (((start_toilet_break 1 1 300 wMaxed).world = wMaxed ∧
        (start_toilet_break 1 1 300 wMaxed).ret = ConvState.selecting ∧
        (start_toilet_break 1 1 300 wMaxed).trace.all (fun e => !(isSched e)) = true) ∧
      ((start_eat_break 1 1 300 wMaxed).world = wMaxed ∧
        (start_eat_break 1 1 300 wMaxed).ret = ConvState.selecting ∧
        (start_eat_break 1 1 300 wMaxed).trace.all (fun e => !(isSched e)) = true) ∧
      ((start_rest_break 1 1 300 wMaxed).world = wMaxed ∧
        (start_rest_break 1 1 300 wMaxed).ret = ConvState.selecting ∧
        (start_rest_break 1 1 300 wMaxed).trace.all (fun e => !(isSched e)) = true)) :=
  ⟨(denied_break_no_mutation 1 1 300 wMaxed).1 (by decide),
   (denied_break_no_mutation 1 1 300 wMaxed).2.1 (by decide),
   (denied_break_no_mutation 1 1 300 wMaxed).2.2.1 (by decide),
   (denied_break_no_mutation 1 1 300 wMaxed).2.2.2 (by decide)⟩

/-- The session invariant of C7: on_break holds exactly when both
break_start_time and current_break_type are set. -/
def sessionBreakInv (s : Session) : Prop :=
  s.on_break = true ↔ (s.break_start_time.isSome = true ∧ s.current_break_type.isSome = true)

instance sessionBreakInvDecidable (s : Session) : Decidable (sessionBreakInv s) := by
  unfold sessionBreakInv
  infer_instance

/-- C7: every operation of the attendance state machine (every command
of the conversation handler) preserves the invariant that on_break is
true iff break_start_time and current_break_type are both set. -/
theorem break_fields_invariant (c : Cmd) (uid chat_id now : Nat) (w : World)
    (r : HResult) (hinv : sessionBreakInv w.session)
    (hstep : step c uid chat_id now w = some r) :
    sessionBreakInv r.world.session := by
  cases c with
  | startWork =>
      simp only [step, Option.some.injEq] at hstep
      subst hstep
      unfold start_work
      dsimp only
      split_ifs <;> exact hinv
  | offWork =>
      simp only [step, Option.some.injEq] at hstep
      subst hstep
      unfold off_work
      split_ifs <;> exact hinv
  | cancelOffWork =>
      simp only [step, Option.some.injEq] at hstep
      subst hstep
      exact hinv
  | confirmOffWork =>
      simp only [step] at hstep
      unfold confirm_off_work at hstep
      cases h : w.session.work_start_time with
      | none => simp [h] at hstep
      | some wst =>
          simp only [h, Option.some.injEq] at hstep
          subst hstep
          simp [sessionBreakInv, emptySession]
  | startToilet =>
      simp only [step, Option.some.injEq] at hstep
      subst hstep
      unfold start_toilet_break _validate_break_start
      dsimp only
      cases hw : w.session.work_started with
      | false => simpa using hinv
      | true =>
          cases hb : w.session.on_break with
          | true => simpa using hinv
          | false =>
              by_cases hm : MAX_TOILET_BREAKS ≤ w.session.toilet_breaks_today
              · simpa [hm] using hinv
              · simp [hm, sessionBreakInv]
  | startEat =>
      simp only [step, Option.some.injEq] at hstep
      subst hstep
      unfold start_eat_break _validate_break_start
      dsimp only
      cases hw : w.session.work_started with
      | false => simpa using hinv
      | true =>
          cases hb : w.session.on_break with
          | true => simpa using hinv
          | false =>
              by_cases hm : MAX_EAT_BREAKS ≤ w.session.eat_breaks_today
              · simpa [hm] using hinv
              · by_cases hwin : replaceHMS now 22 0 0 ≤ now ∧ now ≤ replaceHMS now 22 0 0 + 30 * 60
                · simp [hm, hwin, sessionBreakInv]
                · simpa [hm, hwin] using hinv
  | startRest =>
      simp only [step, Option.some.injEq] at hstep
      subst hstep
      unfold start_rest_break _validate_break_start
      dsimp only
      cases hw : w.session.work_started with
      | false => simpa using hinv
      | true =>
          cases hb : w.session.on_break with
          | true => simpa using hinv
          | false =>
              by_cases hm : MAX_REST_BREAKS ≤ w.session.rest_breaks_today
              · simpa [hm] using hinv
              · by_cases hwin : replaceHMS now 16 15 0 ≤ now ∧
                    now ≤ replaceHMS now 16 15 0 + (1 * 3600 + 30 * 60)
                · simp [hm, hwin, sessionBreakInv]
                · simpa [hm, hwin] using hinv
  | endBreakC =>
      simp only [step, Option.some.injEq] at hstep
      subst hstep
      unfold end_break
      cases h1 : w.session.break_start_time with
      | none => simpa using hinv
      | some bst =>
          cases h2 : w.session.current_break_type with
          | none => simpa using hinv
          | some bt => simp [sessionBreakInv]

/-- Witness for C7: the invariant holds after a concrete successful
toilet-break start from a fresh working session. -/
theorem break_fields_invariant_witness :
    sessionBreakInv (start_toilet_break 1 1 79200 wWorking).world.session :=
  break_fields_invariant Cmd.startToilet 1 1 79200 wWorking
    (start_toilet_break 1 1 79200 wWorking) (by decide) rfl

/-- The invariant of C10: a started work session has a start timestamp. -/
def workTimeInv (s : Session) : Prop :=
  s.work_started = true → s.work_start_time.isSome = true

instance workTimeInvDecidable (s : Session) : Decidable (workTimeInv s) := by
  unfold workTimeInv
  infer_instance

/-- A user who has not interacted yet: the empty session, no jobs, no
channel. -/
def wIdle : World := ⟨emptySession, [], []⟩

/-- C10: work_started implies work_start_time is set.  The conjuncts:
every operation preserves this invariant; start_work on a not-started
session sets both flag and timestamp together; off_work hands out the
checkout-confirmation state only when work_started holds; and under the
invariant, the total-work-duration computation of confirm_off_work is
well-defined (no missing-value subtraction, modelled by a some result)
whenever work_started holds. -/
theorem work_duration_welldefined :
    (∀ c uid chat_id now w r, workTimeInv w.session →
        step c uid chat_id now w = some r → workTimeInv r.world.session) ∧
    (∀ uid now w, w.session.work_started = false →
        (start_work uid now w).world.session.work_started = true ∧
        (start_work uid now w).world.session.work_start_time = some now) ∧
    (∀ w, (off_work w).ret = ConvState.confirmOff → w.session.work_started = true) ∧
    (∀ uid now w, workTimeInv w.session → w.session.work_started = true →
        (confirm_off_work uid now w).isSome = true) := by
  refine ⟨?_, ?_, ?_, ?_⟩
  · intro c uid chat_id now w r hinv hstep
    cases c with
    | startWork =>
        simp only [step, Option.some.injEq] at hstep
        subst hstep
        unfold start_work
        dsimp only
        split_ifs <;> first
          | exact hinv
          | exact fun _ => rfl
    | offWork =>
        simp only [step, Option.some.injEq] at hstep
        subst hstep
        unfold off_work
        split_ifs <;> exact hinv
    | cancelOffWork =>
        simp only [step, Option.some.injEq] at hstep
        subst hstep
        exact hinv
    | confirmOffWork =>
        simp only [step] at hstep
        unfold confirm_off_work at hstep
        cases h : w.session.work_start_time with
        | none => simp [h] at hstep
        | some wst =>
            simp only [h, Option.some.injEq] at hstep
            subst hstep
            intro hc
            cases hc
    | startToilet =>
        simp only [step, Option.some.injEq] at hstep
        subst hstep
        unfold start_toilet_break _validate_break_start
        dsimp only
        cases hw : w.session.work_started with
        | false => simpa using hinv
        | true =>
            cases hb : w.session.on_break with
            | true => simpa using hinv
            | false =>
                by_cases hm : MAX_TOILET_BREAKS ≤ w.session.toilet_breaks_today
                · simpa [hm] using hinv
                · simp only [hm, if_false]
                  intro _
                  simpa [workTimeInv, hw] using hinv
    | startEat =>
        simp only [step, Option.some.injEq] at hstep
        subst hstep
        unfold start_eat_break _validate_break_start
        dsimp only
        cases hw : w.session.work_started with
        | false => simpa using hinv
        | true =>
            cases hb : w.session.on_break with
            | true => simpa using hinv
            | false =>
                by_cases hm : MAX_EAT_BREAKS ≤ w.session.eat_breaks_today
                · simpa [hm] using hinv
                · by_cases hwin : replaceHMS now 22 0 0 ≤ now ∧ now ≤ replaceHMS now 22 0 0 + 30 * 60
                  · simp only [hm, hwin, if_false, not_true_eq_false, if_neg (not_not_intro hwin)]
                    intro _
                    simpa [workTimeInv, hw] using hinv
                  · simpa [hm, hwin] using hinv
    | startRest =>
        simp only [step, Option.some.injEq] at hstep
        subst hstep
        unfold start_rest_break _validate_break_start
        dsimp only
        cases hw : w.session.work_started with
        | false => simpa using hinv
        | true =>
            cases hb : w.session.on_break with
            | true => simpa using hinv
            | false =>
                by_cases hm : MAX_REST_BREAKS ≤ w.session.rest_breaks_today
                · simpa [hm] using hinv
                · by_cases hwin : replaceHMS now 16 15 0 ≤ now ∧
                      now ≤ replaceHMS now 16 15 0 + (1 * 3600 + 30 * 60)
                  · simp only [hm, hwin, if_false, not_true_eq_false, if_neg (not_not_intro hwin)]
                    intro _
                    simpa [workTimeInv, hw] using hinv
                  · simpa [hm, hwin] using hinv
    | endBreakC =>
        simp only [step, Option.some.injEq] at hstep
        subst hstep
        unfold end_break
        cases h1 : w.session.break_start_time with
        | none => simpa using hinv
        | some bst =>
            cases h2 : w.session.current_break_type with
            | none => simpa using hinv
            | some bt => exact hinv
  · intro uid now w hns
    unfold start_work
    simp [hns]
  · intro w hret
    unfold off_work at hret
    cases hw : w.session.work_started with
    | true => rfl
    | false => simp [hw] at hret
  · intro uid now w hinv hws
    unfold confirm_off_work
    cases h : w.session.work_start_time with
    | none =>
        exfalso
        have := hinv hws
        rw [h] at this
        cases this
    | some wst => simp [h]

/-- Witness for C10 at concrete inputs: clocking in from the idle state
preserves the invariant and sets both fields, off_work on a working
session asks for confirmation only with work_started set, and
confirm_off_work returns a result there. -/
theorem work_duration_welldefined_witness :
    workTimeInv (start_work 1 200 wIdle).world.session ∧
    ((start_work 1 200 wIdle).world.session.work_started = true ∧
      (start_work 1 200 wIdle).world.session.work_start_time = some 200) ∧
    wWorking.session.work_started = true ∧
    (confirm_off_work 1 500 wWorking).isSome = true :=
  ⟨work_duration_welldefined.1 Cmd.startWork 1 1 200 wIdle
      (start_work 1 200 wIdle) (by decide) rfl,
   work_duration_welldefined.2.1 1 200 wIdle (by decide),
   work_duration_welldefined.2.2.1 wWorking (by decide),
   work_duration_welldefined.2.2.2 1 500 wWorking (by decide) (by decide)⟩

/-- C8: confirming clock-out with a healthy channel present sends
STOP_MONITORING and closes the channel, computes the total work duration
now - work_start_time, logs the off_work event, emits the final report,
clears the whole session, and a subsequent clock-in starts from zero
break counters. -/
theorem confirm_off_work_behavior (uid now t1 : Nat) (w : World) (c : Chan) (wst : Nat)
    (hc : wsLookup uid w.ws = some c) (hf : c.fails = false)
    (hwst : w.session.work_start_time = some wst) :
    ∃ r, confirm_off_work uid now w = some r ∧
      Effect.wsSent uid "STOP_MONITORING" ∈ r.trace ∧
      Effect.wsClosedE uid ∈ r.trace ∧
      wsLookup uid r.world.ws = some { c with closed := true } ∧
      Effect.logged "off_work" (offWorkLogDetail ((now : Int) - (wst : Int))) ∈ r.trace ∧
      Effect.replyText offWorkReport ∈ r.trace ∧
      r.world.session = emptySession ∧
      r.ret = ConvState.ended ∧
      (start_work uid t1 r.world).world.session.work_started = true ∧
      (start_work uid t1 r.world).world.session.work_start_time = some t1 ∧
      (start_work uid t1 r.world).world.session.toilet_breaks_today = 0 ∧
      (start_work uid t1 r.world).world.session.eat_breaks_today = 0 ∧
      (start_work uid t1 r.world).world.session.rest_breaks_today = 0 := by
  refine ⟨⟨⟨emptySession, w.jobs, wsClose uid w.ws⟩, ConvState.ended,
      [Effect.wsSent uid "STOP_MONITORING", Effect.wsClosedE uid,
       Effect.logged "off_work" (offWorkLogDetail ((now : Int) - (wst : Int))),
       Effect.replyText offWorkReport, Effect.mutated]⟩,
    ?_, ?_, ?_, ?_, ?_, ?_, rfl, rfl, ?_, ?_, ?_, ?_, ?_⟩
  · unfold confirm_off_work
    simp [hc, hf, hwst]
  · simp
  · simp
  · rw [wsLookup_wsClose, hc]
    rfl
  · simp
  · simp
  · simp [start_work, emptySession]
  · simp [start_work, emptySession]
  · simp [start_work, emptySession]
  · simp [start_work, emptySession]
  · simp [start_work, emptySession]

/-- Witness for C8: the concrete working world wWorking has a healthy
channel for user 1 and work_start_time 100; confirming at time 500
produces all the asserted effects and a cleared session. -/
theorem confirm_off_work_behavior_witness :
    ∃ r, confirm_off_work 1 500 wWorking = some r ∧
      Effect.wsSent 1 "STOP_MONITORING" ∈ r.trace ∧
      Effect.wsClosedE 1 ∈ r.trace ∧
      wsLookup 1 r.world.ws = some { (({} : Chan)) with closed := true } ∧
      Effect.logged "off_work" (offWorkLogDetail ((500 : Int) - ((100 : Nat) : Int))) ∈ r.trace ∧
      Effect.replyText offWorkReport ∈ r.trace ∧
      r.world.session = emptySession ∧
      r.ret = ConvState.ended ∧
      (start_work 1 900 r.world).world.session.work_started = true ∧
      (start_work 1 900 r.world).world.session.work_start_time = some 900 ∧
      (start_work 1 900 r.world).world.session.toilet_breaks_today = 0 ∧
      (start_work 1 900 r.world).world.session.eat_breaks_today = 0 ∧
      (start_work 1 900 r.world).world.session.rest_breaks_today = 0 :=
  confirm_off_work_behavior 1 500 900 wWorking {} 100 (by decide) rfl (by decide)

theorem send_ws_command_all_not_arm (uid : Nat) (cmd : String) (w : World) :
    (send_ws_command uid cmd w).all (fun e => !(isArm e)) = true := by
  unfold send_ws_command
  cases h : wsLookup uid w.ws with
  | none => rfl
  | some c => cases hf : c.fails <;> simp [hf, isArm]

/-- C1 (amended): a successful toilet-break start arms a warning of
delay limit - 60 = 540 seconds; a successful eat (rest) break start arms
a warning of delay windowEnd - now - 60 exactly when windowEnd - now
exceeds 60 seconds (equivalently, when that delay is positive), and arms
nothing otherwise. -/
theorem warning_delay_computation (uid chat_id now : Nat) (w : World) :
    ((start_toilet_break uid chat_id now w).ret = ConvState.onBreakS →
      Effect.armed uid ((TOILET_BREAK_LIMIT_SECONDS : Int) - 60) toiletWarnMsg
        ∈ (start_toilet_break uid chat_id now w).trace) ∧
    ((start_eat_break uid chat_id now w).ret = ConvState.onBreakS →
      ((60 : Int) < ((replaceHMS now 22 0 0 : Nat) : Int) + 1800 - (now : Int) →
        Effect.armed uid
            (((replaceHMS now 22 0 0 : Nat) : Int) + 1800 - (now : Int) - 60) eatWarnMsg
          ∈ (start_eat_break uid chat_id now w).trace) ∧
      (((replaceHMS now 22 0 0 : Nat) : Int) + 1800 - (now : Int) ≤ 60 →
        (start_eat_break uid chat_id now w).trace.all (fun e => !(isArm e)) = true)) ∧
    ((start_rest_break uid chat_id now w).ret = ConvState.onBreakS →
      ((60 : Int) < ((replaceHMS now 16 15 0 : Nat) : Int) + 5400 - (now : Int) →
        Effect.armed uid
            (((replaceHMS now 16 15 0 : Nat) : Int) + 5400 - (now : Int) - 60)
            restWarnMsg
          ∈ (start_rest_break uid chat_id now w).trace) ∧
      (((replaceHMS now 16 15 0 : Nat) : Int) + 5400 - (now : Int) ≤ 60 →
        (start_rest_break uid chat_id now w).trace.all (fun e => !(isArm e)) = true)) := by
  refine ⟨?_, ?_, ?_⟩
  · intro h
    unfold start_toilet_break _validate_break_start at h ⊢
    dsimp only at h ⊢
    cases hw : w.session.work_started with
    | false => simp [hw] at h
    | true =>
        cases hb : w.session.on_break with
        | true => simp [hw, hb] at h
        | false =>
            by_cases hm : MAX_TOILET_BREAKS ≤ w.session.toilet_breaks_today
            · simp [hw, hb, hm] at h
            · simp [hw, hb, hm, schedule_warning, List.mem_append]
  · intro h
    unfold start_eat_break _validate_break_start at h ⊢
    dsimp only at h ⊢
    cases hw : w.session.work_started with
    | false => simp [hw] at h
    | true =>
        cases hb : w.session.on_break with
        | true => simp [hw, hb] at h
        | false =>
            by_cases hm : MAX_EAT_BREAKS ≤ w.session.eat_breaks_today
            · simp [hw, hb, hm] at h
            · by_cases hwin : replaceHMS now 22 0 0 ≤ now ∧ now ≤ replaceHMS now 22 0 0 + 30 * 60
              · by_cases h60 :
                    (60 : Int) < ((replaceHMS now 22 0 0 : Nat) : Int) + 1800 - (now : Int)
                · refine ⟨fun _ => ?_, fun hle => absurd h60 (not_lt.mpr hle)⟩
                  simp [hw, hb, hm, hwin, h60, schedule_warning, List.mem_append]
                · refine ⟨fun h60c => absurd h60c h60, fun _ => ?_⟩
                  cases hws : wsLookup uid w.ws with
                  | none =>
                      simp [hw, hb, hm, hwin, h60, send_ws_command, hws, isArm]
                  | some ch =>
                      cases hcf : ch.fails <;>
                        simp [hw, hb, hm, hwin, h60, send_ws_command, hws, hcf, isArm]
              · simp [hw, hb, hm, hwin] at h
  · intro h
    unfold start_rest_break _validate_break_start at h ⊢
    dsimp only at h ⊢
    cases hw : w.session.work_started with
    | false => simp [hw] at h
    | true =>
        cases hb : w.session.on_break with
        | true => simp [hw, hb] at h
        | false =>
            by_cases hm : MAX_REST_BREAKS ≤ w.session.rest_breaks_today
            · simp [hw, hb, hm] at h
            · by_cases hwin : replaceHMS now 16 15 0 ≤ now ∧
                  now ≤ replaceHMS now 16 15 0 + (1 * 3600 + 30 * 60)
              · by_cases h60 :
                    (60 : Int) < ((replaceHMS now 16 15 0 : Nat) : Int) + 5400 - (now : Int)
                · refine ⟨fun _ => ?_, fun hle => absurd h60 (not_lt.mpr hle)⟩
                  simp [hw, hb, hm, hwin, h60, schedule_warning, List.mem_append]
                · refine ⟨fun h60c => absurd h60c h60, fun _ => ?_⟩
                  cases hws : wsLookup uid w.ws with
                  | none =>
                      simp [hw, hb, hm, hwin, h60, send_ws_command, hws, isArm]
                  | some ch =>
                      cases hcf : ch.fails <;>
                        simp [hw, hb, hm, hwin, h60, send_ws_command, hws, hcf, isArm]
              · simp [hw, hb, hm, hwin] at h

/-- Witness for the amended C1: at 22:00:00 a successful eat start arms
delay 1740; at 22:29:01 (59 seconds before window end) a successful eat
start arms nothing; toilet always arms 540; rest at 16:15:00 arms 5340. -/
theorem warning_delay_computation_witness :
    Effect.armed 1 ((TOILET_BREAK_LIMIT_SECONDS : Int) - 60) toiletWarnMsg
      ∈ (start_toilet_break 1 1 79200 wWorking).trace ∧
    Effect.armed 1 (((replaceHMS 79200 22 0 0 : Nat) : Int) + 1800 - ((79200 : Nat) : Int) - 60)
      eatWarnMsg ∈ (start_eat_break 1 1 79200 wWorking).trace ∧
    (start_eat_break 1 1 80941 wWorking).trace.all (fun e => !(isArm e)) = true ∧
    Effect.armed 1
      (((replaceHMS 58500 16 15 0 : Nat) : Int) + 5400 - ((58500 : Nat) : Int) - 60)
      restWarnMsg ∈ (start_rest_break 1 1 58500 wWorking).trace :=
  ⟨(warning_delay_computation 1 1 79200 wWorking).1 (by decide),
   ((warning_delay_computation 1 1 79200 wWorking).2.1 (by decide)).1 (by decide),
   ((warning_delay_computation 1 1 80941 wWorking).2.1 (by decide)).2 (by decide),
   ((warning_delay_computation 1 1 58500 wWorking).2.2 (by decide)).1 (by decide)⟩

/-- C2 (amended): for every successful break-start the side effects are
ordered check, signal, state mutation, log, scheduler arm, report (the
log precedes the scheduler update); for every break-end on an actual
break they are ordered signal, scheduler disarm, validity check, log,
state mutation, report (the signal and disarm precede the check, and the
mutation follows the log). -/
theorem side_effect_order_actual (uid chat_id now : Nat) (w : World) :
    ((start_toilet_break uid chat_id now w).ret = ConvState.onBreakS →
      startEffectOrder (start_toilet_break uid chat_id now w).trace = true) ∧
    ((start_eat_break uid chat_id now w).ret = ConvState.onBreakS →
      startEffectOrder (start_eat_break uid chat_id now w).trace = true) ∧
    ((start_rest_break uid chat_id now w).ret = ConvState.onBreakS →
      startEffectOrder (start_rest_break uid chat_id now w).trace = true) ∧
    (∀ bst bt, w.session.break_start_time = some bst →
      w.session.current_break_type = some bt →
      endEffectOrder (end_break uid chat_id now w).trace = true) := by
  refine ⟨?_, ?_, ?_, ?_⟩
  · intro h
    unfold start_toilet_break _validate_break_start at h ⊢
    dsimp only at h ⊢
    cases hw : w.session.work_started with
    | false => simp [hw] at h
    | true =>
        cases hb : w.session.on_break with
        | true => simp [hw, hb] at h
        | false =>
            by_cases hm : MAX_TOILET_BREAKS ≤ w.session.toilet_breaks_today
            · simp [hw, hb, hm] at h
            · by_cases hemp : (w.jobs.filter (fun j => j.uid == uid)).isEmpty
              · cases hws : wsLookup uid w.ws with
                | none =>
                    simp [hw, hb, hm, send_ws_command, hws, schedule_warning,
                      _remove_previous_job, hemp, startEffectOrder, allBefore,
                      isCheck, isSignal, isMut, isSched, isLog, isReport]
                | some ch =>
                    cases hcf : ch.fails <;>
                      simp [hw, hb, hm, send_ws_command, hws, hcf, schedule_warning,
                        _remove_previous_job, hemp, startEffectOrder, allBefore,
                        isCheck, isSignal, isMut, isSched, isLog, isReport]
              · cases hws : wsLookup uid w.ws with
                | none =>
                    simp [hw, hb, hm, send_ws_command, hws, schedule_warning,
                      _remove_previous_job, hemp, startEffectOrder, allBefore,
                      isCheck, isSignal, isMut, isSched, isLog, isReport]
                | some ch =>
                    cases hcf : ch.fails <;>
                      simp [hw, hb, hm, send_ws_command, hws, hcf, schedule_warning,
                        _remove_previous_job, hemp, startEffectOrder, allBefore,
                        isCheck, isSignal, isMut, isSched, isLog, isReport]
  · intro h
    unfold start_eat_break _validate_break_start at h ⊢
    dsimp only at h ⊢
    cases hw : w.session.work_started with
    | false => simp [hw] at h
    | true =>
        cases hb : w.session.on_break with
        | true => simp [hw, hb] at h
        | false =>
            by_cases hm : MAX_EAT_BREAKS ≤ w.session.eat_breaks_today
            · simp [hw, hb, hm] at h
            · by_cases hwin : replaceHMS now 22 0 0 ≤ now ∧ now ≤ replaceHMS now 22 0 0 + 30 * 60
              · by_cases h60 :
                    (60 : Int) < ((replaceHMS now 22 0 0 : Nat) : Int) + 1800 - (now : Int)
                · by_cases hemp : (w.jobs.filter (fun j => j.uid == uid)).isEmpty
                  · cases hws : wsLookup uid w.ws with
                    | none =>
                        simp [hw, hb, hm, hwin, h60, send_ws_command, hws, schedule_warning,
                          _remove_previous_job, hemp, startEffectOrder, allBefore,
                          isCheck, isSignal, isMut, isSched, isLog, isReport]
                    | some ch =>
                        cases hcf : ch.fails <;>
                          simp [hw, hb, hm, hwin, h60, send_ws_command, hws, hcf,
                            schedule_warning, _remove_previous_job, hemp, startEffectOrder,
                            allBefore, isCheck, isSignal, isMut, isSched, isLog, isReport]
                  · cases hws : wsLookup uid w.ws with
                    | none =>
                        simp [hw, hb, hm, hwin, h60, send_ws_command, hws, schedule_warning,
                          _remove_previous_job, hemp, startEffectOrder, allBefore,
                          isCheck, isSignal, isMut, isSched, isLog, isReport]
                    | some ch =>
                        cases hcf : ch.fails <;>
                          simp [hw, hb, hm, hwin, h60, send_ws_command, hws, hcf,
                            schedule_warning, _remove_previous_job, hemp, startEffectOrder,
                            allBefore, isCheck, isSignal, isMut, isSched, isLog, isReport]
                · cases hws : wsLookup uid w.ws with
                  | none =>
                      simp [hw, hb, hm, hwin, h60, send_ws_command, hws, startEffectOrder,
                        allBefore, isCheck, isSignal, isMut, isSched, isLog, isReport]
                  | some ch =>
                      cases hcf : ch.fails <;>
                        simp [hw, hb, hm, hwin, h60, send_ws_command, hws, hcf,
                          startEffectOrder, allBefore, isCheck, isSignal, isMut, isSched,
                          isLog, isReport]
              · simp [hw, hb, hm, hwin] at h
  · intro h
    unfold start_rest_break _validate_break_start at h ⊢
    dsimp only at h ⊢
    cases hw : w.session.work_started with
    | false => simp [hw] at h
    | true =>
        cases hb : w.session.on_break with
        | true => simp [hw, hb] at h
        | false =>
            by_cases hm : MAX_REST_BREAKS ≤ w.session.rest_breaks_today
            · simp [hw, hb, hm] at h
            · by_cases hwin : replaceHMS now 16 15 0 ≤ now ∧
                  now ≤ replaceHMS now 16 15 0 + (1 * 3600 + 30 * 60)
              · by_cases h60 :
                    (60 : Int) < ((replaceHMS now 16 15 0 : Nat) : Int) + 5400 - (now : Int)
                · by_cases hemp : (w.jobs.filter (fun j => j.uid == uid)).isEmpty
                  · cases hws : wsLookup uid w.ws with
                    | none =>
                        simp [hw, hb, hm, hwin, h60, send_ws_command, hws, schedule_warning,
                          _remove_previous_job, hemp, startEffectOrder, allBefore,
                          isCheck, isSignal, isMut, isSched, isLog, isReport]
                    | some ch =>
                        cases hcf : ch.fails <;>
                          simp [hw, hb, hm, hwin, h60, send_ws_command, hws, hcf,
                            schedule_warning, _remove_previous_job, hemp, startEffectOrder,
                            allBefore, isCheck, isSignal, isMut, isSched, isLog, isReport]
                  · cases hws : wsLookup uid w.ws with
                    | none =>
                        simp [hw, hb, hm, hwin, h60, send_ws_command, hws, schedule_warning,
                          _remove_previous_job, hemp, startEffectOrder, allBefore,
                          isCheck, isSignal, isMut, isSched, isLog, isReport]
                    | some ch =>
                        cases hcf : ch.fails <;>
                          simp [hw, hb, hm, hwin, h60, send_ws_command, hws, hcf,
                            schedule_warning, _remove_previous_job, hemp, startEffectOrder,
                            allBefore, isCheck, isSignal, isMut, isSched, isLog, isReport]
                · cases hws : wsLookup uid w.ws with
                  | none =>
                      simp [hw, hb, hm, hwin, h60, send_ws_command, hws, startEffectOrder,
                        allBefore, isCheck, isSignal, isMut, isSched, isLog, isReport]
                  | some ch =>
                      cases hcf : ch.fails <;>
                        simp [hw, hb, hm, hwin, h60, send_ws_command, hws, hcf,
                          startEffectOrder, allBefore, isCheck, isSignal, isMut, isSched,
                          isLog, isReport]
              · simp [hw, hb, hm, hwin] at h
  · intro bst bt h1 h2
    unfold end_break
    rw [h1, h2]
    by_cases hemp : (w.jobs.filter (fun j => j.uid == uid)).isEmpty
    · cases hws : wsLookup uid w.ws with
      | none =>
          simp [send_ws_command, hws, _remove_previous_job, hemp, endEffectOrder,
            allBefore, isCheck, isSignal, isMut, isSched, isLog, isReport]
      | some ch =>
          cases hcf : ch.fails <;>
            simp [send_ws_command, hws, hcf, _remove_previous_job, hemp, endEffectOrder,
              allBefore, isCheck, isSignal, isMut, isSched, isLog, isReport]
    · cases hws : wsLookup uid w.ws with
      | none =>
          simp [send_ws_command, hws, _remove_previous_job, hemp, endEffectOrder,
            allBefore, isCheck, isSignal, isMut, isSched, isLog, isReport]
      | some ch =>
          cases hcf : ch.fails <;>
            simp [send_ws_command, hws, hcf, _remove_previous_job, hemp, endEffectOrder,
              allBefore, isCheck, isSignal, isMut, isSched, isLog, isReport]

/-- Witness for the amended C2 at concrete worlds: a successful toilet
start from wWorking follows the start order, and ending the toilet break
in wElapsed follows the end order. -/
theorem side_effect_order_actual_witness :
    startEffectOrder (start_toilet_break 1 1 79200 wWorking).trace = true ∧
    endEffectOrder (end_break 1 1 10000 wElapsed).trace = true :=
  ⟨(side_effect_order_actual 1 1 79200 wWorking).1 (by decide),
   (side_effect_order_actual 1 1 10000 wElapsed).2.2.2 9000 BreakType.toilet rfl rfl⟩

end TgBot
